import Mathlib

/-!
Shallow embedding of the bower-gui backend pieces:
  * `src/src/server/bower/BowerManager.ts` (the Bower command wrapper),
  * the socket base service `BaseSrv` (connection registry),
  * the client-side `BaseSrv.ERROR_CODES` enumeration.

The external collaborators (the bower command emitter, `fs`, `JSON.parse`,
`JSON.stringify`) are modelled as inputs: an event trace for a bower
command, the callback argument for `fs.readFile`/`fs.writeFile`, and
function parameters for the JSON codec.

Q deferreds settle at most once: a `resolve` or `reject` after the first
settlement is a no-op.  `Deferred` records the settled state together with
the number of effective settlements.
-/

namespace BowerGui

/-- State of a single-settlement deferred: pending, resolved or rejected. -/
inductive DState (ε α : Type) where
  | pending : DState ε α
  | resolved (v : α) : DState ε α
  | rejected (e : ε) : DState ε α
deriving DecidableEq, Repr

/-- A Q deferred together with a count of effective settlements. -/
structure Deferred (ε α : Type) where
  state : DState ε α
  settleCount : Nat
deriving DecidableEq, Repr

def Deferred.init {ε α : Type} : Deferred ε α := ⟨.pending, 0⟩

/-- `defer.resolve(v)`: only the first settlement takes effect. -/
def Deferred.resolve {ε α : Type} (d : Deferred ε α) (v : α) : Deferred ε α :=
  match d.state with
  | .pending => ⟨.resolved v, d.settleCount + 1⟩
  | _ => d

/-- `defer.reject(e)`: only the first settlement takes effect. -/
def Deferred.reject {ε α : Type} (d : Deferred ε α) (e : ε) : Deferred ε α :=
  match d.state with
  | .pending => ⟨.rejected e, d.settleCount + 1⟩
  | _ => d

/-- Severity of an emitted log line (`logger.trace`, `.info`, `.warn`,
`.error` and `logger.file.info`). -/
inductive LogLevel where
  | trace : LogLevel
  | info : LogLevel
  | warn : LogLevel
  | error : LogLevel
  | fileInfo : LogLevel
deriving DecidableEq, Repr

/-- One emitted log line. -/
structure LogLine where
  level : LogLevel
  tag : String
  message : String
deriving DecidableEq, Repr

/-- `log.data.resolver` as accessed by the `cached` branch of
`installAll`. -/
structure ResolverInfo where
  name : String
  source : String
  target : String
deriving DecidableEq, Repr

/-- A bower `log` (progress) event payload. -/
structure BowerLog where
  id : String
  message : String
  dataResolver : ResolverInfo
deriving DecidableEq, Repr

/-- A bower `error` event payload. -/
structure BowerError where
  code : String
  message : String
deriving DecidableEq, Repr

/-- The event sequence delivered by one bower command: zero or more `log`
events followed by exactly one of `error` (left) or `end` (right, carrying
the result of type `ρ`). -/
structure CmdTrace (ρ : Type) where
  logs : List BowerLog
  term : Sum BowerError ρ
deriving DecidableEq, Repr

/-- Wrapper state while one BowerManager command operation runs.
`continueLog` is the continuation returned by `logger.info` (`false` once
the code sets it to `null`); `crashed` records that a handler threw (the
JS `TypeError` of calling a `null` continuation).  Resolution values are
`Option ρ`: `none` is the JS `null`. -/
structure OpState (ρ : Type) where
  d : Deferred BowerError (Option ρ)
  continueLog : Bool
  lines : List LogLine
  crashed : Bool
deriving DecidableEq, Repr

/-- Initial wrapper state: the opening `logger.info` line was emitted and
returned a live continuation. -/
def OpState.start (ρ : Type) (msg : String) : OpState ρ :=
  ⟨Deferred.init, true, [⟨.info, "BowerManager", msg⟩], false⟩

/-- Events are delivered serially; once a handler threw, no further
handler runs for this command. -/
def stepLog {ρ : Type} (onLog : OpState ρ → BowerLog → OpState ρ)
    (s : OpState ρ) (l : BowerLog) : OpState ρ :=
  if s.crashed then s else onLog s l

/-- Run a command trace through the three handlers of one operation. -/
def runCmd {ρ : Type} (onLog : OpState ρ → BowerLog → OpState ρ)
    (onErr : OpState ρ → BowerError → OpState ρ)
    (onEnd : OpState ρ → ρ → OpState ρ)
    (init : OpState ρ) (t : CmdTrace ρ) : OpState ρ :=
  let s := t.logs.foldl (stepLog onLog) init
  if s.crashed then s
  else
    match t.term with
    | .inl e => onErr s e
    | .inr r => onEnd s r

/- ---------- installAll ---------- -/

/-- `installAll`'s `log` handler: traces id/message, an extra trace line
for `cached` logs, and a file log line. -/
def installAllOnLog {ρ : Type} (s : OpState ρ) (l : BowerLog) : OpState ρ :=
  let s1 : OpState ρ := { s with lines := s.lines ++
    [⟨.trace, "BowerManager", s!"id: {l.id}, message: {l.message}"⟩] }
  let s2 : OpState ρ :=
    if l.id = "cached" then
      { s1 with lines := s1.lines ++
        [⟨.trace, "BowerManager",
          s!"Found cache, package: {l.dataResolver.name}, source: {l.dataResolver.source}, target: {l.dataResolver.target}"⟩] }
    else s1
  { s2 with lines := s2.lines ++
    [⟨.fileInfo, "BowerManager", s!"id: {l.id}, message: {l.message}"⟩] }

/-- `installAll`'s `error` handler. -/
def installAllOnError {ρ : Type} (s : OpState ρ) (e : BowerError) : OpState ρ :=
  { s with
    lines := s.lines ++ [⟨.error, "BowerManager",
      s!"on uninstall all packages. Code: {e.code}, details: {e.message}"⟩],
    d := s.d.reject e }

/-- `installAll`'s `end` handler. -/
def installAllOnEnd {ρ : Type} (s : OpState ρ) (r : ρ) : OpState ρ :=
  let s1 : OpState ρ :=
    if s.continueLog then
      { s with lines := s.lines ++ [⟨.info, "BowerManager", "^gok^:"⟩] }
    else s
  { s1 with d := s1.d.resolve (some r) }

def installAllRun {ρ : Type} (t : CmdTrace ρ) : OpState ρ :=
  runCmd installAllOnLog installAllOnError installAllOnEnd
    (OpState.start ρ "attempting to install all packages...") t

/- ---------- install ---------- -/

/-- `install`'s `log` handler: the body is only a `debugger` statement. -/
def installOnLog {ρ : Type} (s : OpState ρ) (_ : BowerLog) : OpState ρ := s

/-- `install`'s `error` handler. -/
def installOnError {ρ : Type} (name : String) (s : OpState ρ) (e : BowerError) :
    OpState ρ :=
  { s with
    lines := s.lines ++ [⟨.error, "BowerManager",
      s!"on uninstall {name}. Code: {e.code}, details: {e.message}"⟩],
    d := s.d.reject e }

/-- `install`'s `end` handler. -/
def installOnEnd {ρ : Type} (s : OpState ρ) (r : ρ) : OpState ρ :=
  let s1 : OpState ρ :=
    if s.continueLog then
      { s with lines := s.lines ++ [⟨.info, "BowerManager", "^gok^:"⟩] }
    else s
  { s1 with d := s1.d.resolve (some r) }

def installRun {ρ : Type} (name : String) (t : CmdTrace ρ) : OpState ρ :=
  runCmd installOnLog (installOnError name) installOnEnd
    (OpState.start ρ s!"attempting to install the package {name}...") t

/- ---------- uninstall ---------- -/

/-- `uninstall`'s `log` handler: a `not-installed` log calls the
continuation, warns, nulls the continuation and resolves with `null`.
Calling a `null` continuation throws. -/
def uninstallOnLog {ρ : Type} (name : String) (s : OpState ρ) (l : BowerLog) :
    OpState ρ :=
  if l.id = "not-installed" then
    if s.continueLog then
      { s with
        lines := s.lines ++
          [⟨.info, "BowerManager", "^gok^:"⟩,
           ⟨.warn, "BowerManager", s!"{name} is not installed. Any change done"⟩],
        continueLog := false,
        d := s.d.resolve none }
    else { s with crashed := true }
  else s

/-- `uninstall`'s `error` handler. -/
def uninstallOnError {ρ : Type} (name : String) (s : OpState ρ) (e : BowerError) :
    OpState ρ :=
  { s with
    lines := s.lines ++ [⟨.error, "BowerManager",
      s!"on uninstall {name}. Code: {e.code}, details: {e.message}"⟩],
    d := s.d.reject e }

/-- `uninstall`'s `end` handler: the continuation call is guarded. -/
def uninstallOnEnd {ρ : Type} (s : OpState ρ) (r : ρ) : OpState ρ :=
  let s1 : OpState ρ :=
    if s.continueLog then
      { s with lines := s.lines ++ [⟨.info, "BowerManager", "^gok^:"⟩] }
    else s
  { s1 with d := s1.d.resolve (some r) }

def uninstallRun {ρ : Type} (name : String) (t : CmdTrace ρ) : OpState ρ :=
  runCmd (uninstallOnLog name) (uninstallOnError name) uninstallOnEnd
    (OpState.start ρ s!"attempting to uninstall the package {name}...") t

/- ---------- info ---------- -/

/-- `info`'s `log` handler: the body is only a `debugger` statement. -/
def infoOnLog {ρ : Type} (s : OpState ρ) (_ : BowerLog) : OpState ρ := s

/-- `info`'s `error` handler: `ENOTFOUND` resolves `null` (after an
unguarded continuation call), anything else rejects. -/
def infoOnError {ρ : Type} (name : String) (s : OpState ρ) (e : BowerError) :
    OpState ρ :=
  if e.code = "ENOTFOUND" then
    if s.continueLog then
      { s with
        lines := s.lines ++
          [⟨.info, "BowerManager", s!"^gok^: but not found info for {name}"⟩],
        d := s.d.resolve none }
    else { s with crashed := true }
  else
    { s with
      lines := s.lines ++ [⟨.error, "BowerManager",
        s!"on get info for {name}. Code: {e.code}, details: {e.message}"⟩],
      d := s.d.reject e }

/-- `info`'s `end` handler: unguarded continuation call, then resolve. -/
def infoOnEnd {ρ : Type} (s : OpState ρ) (r : ρ) : OpState ρ :=
  if s.continueLog then
    { s with
      lines := s.lines ++ [⟨.info, "BowerManager", "^gok^:"⟩],
      d := s.d.resolve (some r) }
  else { s with crashed := true }

def infoRun {ρ : Type} (name : String) (t : CmdTrace ρ) : OpState ρ :=
  runCmd infoOnLog (infoOnError name) infoOnEnd
    (OpState.start ρ s!"retriving package info for {name}...") t

/- ---------- search ---------- -/

/-- `search`'s `log` handler: the body is only a `debugger` statement. -/
def searchOnLog {ρ : Type} (s : OpState ρ) (_ : BowerLog) : OpState ρ := s

/-- `search`'s `error` handler. -/
def searchOnError {ρ : Type} (query : String) (s : OpState ρ) (e : BowerError) :
    OpState ρ :=
  { s with
    lines := s.lines ++ [⟨.error, "BowerManager",
      s!"on search packages. Term: {query}. Code: {e.code}, details: {e.message}"⟩],
    d := s.d.reject e }

/-- `search`'s `end` handler: unguarded continuation call, then resolve. -/
def searchOnEnd {ρ : Type} (s : OpState ρ) (r : ρ) : OpState ρ :=
  if s.continueLog then
    { s with
      lines := s.lines ++ [⟨.info, "BowerManager", "^gok^:"⟩],
      d := s.d.resolve (some r) }
  else { s with crashed := true }

def searchRun {ρ : Type} (query : String) (t : CmdTrace ρ) : OpState ρ :=
  runCmd searchOnLog (searchOnError query) searchOnEnd
    (OpState.start ρ s!"search packages for {query}...") t

/- ---------- listPackages ---------- -/

/-- `listPackages`'s `log` handler: traces `id: message`. -/
def listPackagesOnLog {ρ : Type} (s : OpState ρ) (l : BowerLog) : OpState ρ :=
  { s with lines := s.lines ++
    [⟨.trace, "BowerManager", s!"{l.id}: {l.message}"⟩] }

/-- `listPackages`'s `error` handler. -/
def listPackagesOnError {ρ : Type} (s : OpState ρ) (e : BowerError) : OpState ρ :=
  { s with
    lines := s.lines ++ [⟨.error, "BowerManager",
      s!"on retriving packages. Code: {e.code} ,details: {e.message}"⟩],
    d := s.d.reject e }

/-- `listPackages`'s `end` handler: unguarded continuation call, then
resolve. -/
def listPackagesOnEnd {ρ : Type} (s : OpState ρ) (r : ρ) : OpState ρ :=
  if s.continueLog then
    { s with
      lines := s.lines ++ [⟨.info, "BowerManager", "^gok^:"⟩],
      d := s.d.resolve (some r) }
  else { s with crashed := true }

def listPackagesRun {ρ : Type} (t : CmdTrace ρ) : OpState ρ :=
  runCmd listPackagesOnLog listPackagesOnError listPackagesOnEnd
    (OpState.start ρ "retriving packages...") t

/- ---------- config file operations ---------- -/

/-- A Node `fs` error object (`code`, `message`, plus the `details`
property the write-error log accesses). -/
structure FsError where
  code : String
  message : String
  details : String
deriving DecidableEq, Repr

/-- Outcome state of `getConfigFile`.  The deferred rejects with
`Option FsError` because the parse-failure branch rejects the `error`
argument of the read callback, which is the JS `null` there (`none`);
it resolves with `Option String`: `none` is `null`, `some data` the raw
file text. -/
structure GetCfgState where
  d : Deferred (Option FsError) (Option String)
  lines : List LogLine
  crashed : Bool
deriving DecidableEq, Repr

/-- `getConfigFile`: the `fs.readFile` callback receives either an error
(left) or the file text (right).  `parse` stands for `JSON.parse`:
`none` models a thrown `SyntaxError`.  On parse success the code resolves
the raw `data` (the parsed `result` is discarded); on parse failure it
rejects `error` — the `null` of the success path — and then throws on
`error.message`, so no error line is emitted. -/
def getConfigFileRun {α : Type} (parse : String → Option α)
    (readResult : Sum FsError String) : GetCfgState :=
  let s0 : GetCfgState :=
    ⟨Deferred.init, [⟨.info, "BowerManager", "retriving config file..."⟩], false⟩
  match readResult with
  | .inr data =>
    match parse data with
    | some _ =>
      { s0 with
        lines := s0.lines ++ [⟨.info, "BowerManager", "^gok^:"⟩],
        d := s0.d.resolve (some data) }
    | none =>
      { s0 with d := s0.d.reject none, crashed := true }
  | .inl e =>
    if e.code = "ENOENT" then
      { s0 with
        d := s0.d.resolve none,
        lines := s0.lines ++
          [⟨.info, "BowerManager", "^gok^: but not config file found"⟩] }
    else
      { s0 with
        d := s0.d.reject (some e),
        lines := s0.lines ++
          [⟨.error, "BowerManager", s!"on get bower.json file: {e.message}"⟩] }

/-- Outcome state of `setConfigFile`: the text handed to `fs.writeFile`,
the deferred (resolved with `true` on success, rejected with the write
error), and the log lines. -/
structure SetCfgState where
  written : String
  d : Deferred FsError Bool
  lines : List LogLine
deriving DecidableEq, Repr

/-- `setConfigFile`: a string `config` (left) is written verbatim; any
other value (right) goes through `stringify`, standing for
`JSON.stringify(config, null, 2)` (pretty-printed, 2-space indent).
`writeResult` is the `fs.writeFile` callback argument: `none` on
success. -/
def setConfigFileRun {α : Type} (stringify : α → String)
    (config : Sum String α) (writeResult : Option FsError) : SetCfgState :=
  let text :=
    match config with
    | .inl s => s
    | .inr v => stringify v
  let s0 : SetCfgState :=
    ⟨text, Deferred.init, [⟨.info, "BowerManager", "writting config file..."⟩]⟩
  match writeResult with
  | none =>
    { s0 with
      lines := s0.lines ++ [⟨.info, "BowerManager", "^gok^:"⟩],
      d := s0.d.resolve true }
  | some err =>
    { s0 with
      lines := s0.lines ++
        [⟨.error, "BowerManager", s!"on writting bower.json file: {err.details}"⟩],
      d := s0.d.reject err }

/- ---------- socket base service ---------- -/

/-- A connected socket as far as the registry cares: its identifier. -/
structure Socket where
  id : String
deriving DecidableEq, Repr

/-- State of the socket base service: the connection registry (a map in
insertion order, keyed by socket id) and the emitted log lines. -/
structure SrvState where
  connections : List Socket
  lines : List LogLine
deriving DecidableEq, Repr

/-- `Map.set` keyed by `c.id`: replace an existing entry, else append. -/
def mapSet (conns : List Socket) (c : Socket) : List Socket :=
  if conns.any (fun x => x.id = c.id) then
    conns.map (fun x => if x.id = c.id then c else x)
  else conns ++ [c]

/-- `BaseSrv._onClientConnect`: register the socket and log. -/
def onClientConnect (name : String) (s : SrvState) (c : Socket) : SrvState :=
  let conns := mapSet s.connections c
  { connections := conns,
    lines := s.lines ++
      [⟨.info, name, s!"New client connected. Now there are {conns.length} connection/s"⟩,
       ⟨.trace, name, s!"Client id {c.id}"⟩] }

/-- `BaseSrv.disconnectAll`: trace, call `disconnect(true)` on every
registered connection (the returned list of ids records those calls),
log the size, then clear the registry.  The size is logged before the
`clear`, so it is the number of connections disconnected. -/
def disconnectAll (name : String) (s : SrvState) : SrvState × List String :=
  ({ connections := [],
     lines := s.lines ++
       [⟨.trace, name, "Disconecting all..."⟩] ++
       s.connections.map (fun c => ⟨.trace, name, s!"Disconecting {c.id}"⟩) ++
       [⟨.info, name, s!"Disconected {s.connections.length}"⟩] },
   s.connections.map Socket.id)

/- ---------- client BaseSrv.ERROR_CODES ---------- -/

/-- The static `ERROR_CODES` object of the client-side `BaseSrv`, in
declaration order. -/
def ERROR_CODES : List (String × Nat) :=
  [("invalid", 0), ("resourceNotFound", 10), ("unknow", 20),
   ("badRequest", 400), ("notAuthorized", 401), ("notFound", 404),
   ("timeout", 408), ("entityToLarge", 413), ("methodNotAllowed", 415),
   ("tooManyRequests", 429), ("error", 500), ("notAvailable", 503)]

/- ---------- predicates and witness-level instantiations ---------- -/

/-- The wrapper state before any settlement: the deferred is untouched,
the continuation is live, no handler threw. -/
def quiet {ρ : Type} (s : OpState ρ) : Prop :=
  s.d = Deferred.init ∧ s.continueLog = true ∧ s.crashed = false

/-- The deferred has settled (resolved or rejected) and exactly one
settlement took effect. -/
def settledOnce {ε α : Type} (d : Deferred ε α) : Prop :=
  d.state ≠ DState.pending ∧ d.settleCount = 1

/-- Invariant of the `uninstall` wrapper during the `log` phase: a crash
implies the continuation was already `null`, a `null` continuation
implies the deferred already resolved with `null`, and a live
continuation implies the deferred is untouched. -/
def UInv {ρ : Type} (s : OpState ρ) : Prop :=
  (s.crashed = true → s.continueLog = false) ∧
  (s.continueLog = false →
    s.d.state = DState.resolved none ∧ s.d.settleCount = 1) ∧
  (s.continueLog = true → s.d = Deferred.init)

/-- The deferred resolved with the JS `null`, exactly once. -/
def resolvedNull {ρ : Type} (s : OpState ρ) : Prop :=
  s.d.state = DState.resolved none ∧ s.d.settleCount = 1

/-- `JSON.parse` restricted to the string literal `"app"`: records the
fact that the parsed value (`app`) differs from the raw text
(`"app"` with quotes). -/
def parseStrLit (s : String) : Option String :=
  if s = "\"app\"" then some "app" else none

/-- A config object with a single `name` field, mirroring the
`\x7bname:"app"\x7d` example. -/
structure AppCfg where
  name : String
deriving DecidableEq, Repr

/-- A concrete pretty-printing serialization of `AppCfg`, shaped like
`JSON.stringify(c, null, 2)`. -/
def appCfgStringify (c : AppCfg) : String :=
  "\x7b\n  \"name\": \"" ++ c.name ++ "\"\n\x7d"

/-- A concrete parse function inverting `appCfgStringify` at the
example value. -/
def appCfgParse (s : String) : Option AppCfg :=
  if s = appCfgStringify ⟨"app"⟩ then some ⟨"app"⟩ else none

/- ---------- helper lemmas ---------- -/

theorem foldl_preserve {σ β : Type} (f : σ → β → σ) (P : σ → Prop)
    (h : ∀ s b, P s → P (f s b)) (l : List β) :
    ∀ s : σ, P s → P (l.foldl f s) := by
  induction l with
  | nil => intro s hs; simpa using hs
  | cons b bs ih => intro s hs; simpa using ih (f s b) (h s b hs)

theorem stepLog_preserve {ρ : Type} (onLog : OpState ρ → BowerLog → OpState ρ)
    (P : OpState ρ → Prop) (h : ∀ s l, P s → P (onLog s l)) :
    ∀ s l, P s → P (stepLog onLog s l) := by
  intro s l hp
  by_cases hc : s.crashed
  · simpa [stepLog, hc] using hp
  · simpa [stepLog, hc] using h s l hp

theorem foldl_stepLog_const {ρ : Type}
    (onLog : OpState ρ → BowerLog → OpState ρ)
    (hid : ∀ s l, onLog s l = s) (logs : List BowerLog) :
    ∀ s : OpState ρ, logs.foldl (stepLog onLog) s = s := by
  induction logs with
  | nil => intro s; rfl
  | cons l ls ih =>
      intro s
      have hstep : stepLog onLog s l = s := by
        by_cases hc : s.crashed <;> simp [stepLog, hc, hid]
      rw [List.foldl_cons, hstep, ih s]

theorem runCmd_inl {ρ : Type} (onLog : OpState ρ → BowerLog → OpState ρ)
    (onErr : OpState ρ → BowerError → OpState ρ)
    (onEnd : OpState ρ → ρ → OpState ρ)
    (init : OpState ρ) (logs : List BowerLog) (e : BowerError)
    (h : (logs.foldl (stepLog onLog) init).crashed = false) :
    runCmd onLog onErr onEnd init ⟨logs, Sum.inl e⟩ =
      onErr (logs.foldl (stepLog onLog) init) e := by
  simp [runCmd, h]

theorem runCmd_inr {ρ : Type} (onLog : OpState ρ → BowerLog → OpState ρ)
    (onErr : OpState ρ → BowerError → OpState ρ)
    (onEnd : OpState ρ → ρ → OpState ρ)
    (init : OpState ρ) (logs : List BowerLog) (r : ρ)
    (h : (logs.foldl (stepLog onLog) init).crashed = false) :
    runCmd onLog onErr onEnd init ⟨logs, Sum.inr r⟩ =
      onEnd (logs.foldl (stepLog onLog) init) r := by
  simp [runCmd, h]

theorem runCmd_crashed {ρ : Type} (onLog : OpState ρ → BowerLog → OpState ρ)
    (onErr : OpState ρ → BowerError → OpState ρ)
    (onEnd : OpState ρ → ρ → OpState ρ)
    (init : OpState ρ) (logs : List BowerLog) (term : Sum BowerError ρ)
    (h : (logs.foldl (stepLog onLog) init).crashed = true) :
    runCmd onLog onErr onEnd init ⟨logs, term⟩ =
      logs.foldl (stepLog onLog) init := by
  simp [runCmd, h]

theorem reject_settledOnce {ε α : Type} (d : Deferred ε α) (e : ε)
    (h : d = Deferred.init) : settledOnce (d.reject e) := by
  subst h
  simp [Deferred.init, Deferred.reject, settledOnce]

theorem resolve_settledOnce {ε α : Type} (d : Deferred ε α) (v : α)
    (h : d = Deferred.init) : settledOnce (d.resolve v) := by
  subst h
  simp [Deferred.init, Deferred.resolve, settledOnce]

theorem resolve_of_settled {ε α : Type} (d : Deferred ε α) (v : α)
    (h : d.state ≠ DState.pending) : d.resolve v = d := by
  unfold Deferred.resolve
  cases hs : d.state with
  | pending => exact absurd hs h
  | resolved w => rfl
  | rejected e => rfl

theorem reject_of_settled {ε α : Type} (d : Deferred ε α) (e : ε)
    (h : d.state ≠ DState.pending) : d.reject e = d := by
  unfold Deferred.reject
  cases hs : d.state with
  | pending => exact absurd hs h
  | resolved w => rfl
  | rejected f => rfl

theorem installAllOnLog_quiet {ρ : Type} (s : OpState ρ) (l : BowerLog)
    (h : quiet s) : quiet (installAllOnLog s l) := by
  by_cases hc : l.id = "cached" <;>
    simp [installAllOnLog, quiet, hc] at h ⊢ <;> exact h

theorem listPackagesOnLog_quiet {ρ : Type} (s : OpState ρ) (l : BowerLog)
    (h : quiet s) : quiet (listPackagesOnLog s l) := by
  simp [listPackagesOnLog, quiet] at h ⊢
  exact h

theorem quiet_start {ρ : Type} (msg : String) : quiet (OpState.start ρ msg) :=
  ⟨rfl, rfl, rfl⟩

theorem UInv_start {ρ : Type} (msg : String) : UInv (OpState.start ρ msg) := by
  refine ⟨?_, ?_, ?_⟩ <;> intro h
  · exact absurd h (by simp [OpState.start])
  · exact absurd h (by simp [OpState.start])
  · rfl

theorem installAllOnEnd_d {ρ : Type} (s : OpState ρ) (r : ρ) :
    (installAllOnEnd s r).d = s.d.resolve (some r) := by
  unfold installAllOnEnd
  by_cases hcl : s.continueLog = true <;> simp [hcl]

theorem installOnEnd_d {ρ : Type} (s : OpState ρ) (r : ρ) :
    (installOnEnd s r).d = s.d.resolve (some r) := by
  unfold installOnEnd
  by_cases hcl : s.continueLog = true <;> simp [hcl]

theorem uninstallOnEnd_d {ρ : Type} (s : OpState ρ) (r : ρ) :
    (uninstallOnEnd s r).d = s.d.resolve (some r) := by
  unfold uninstallOnEnd
  by_cases hcl : s.continueLog = true <;> simp [hcl]

theorem runCmd_so_of_quiet {ρ : Type}
    (onLog : OpState ρ → BowerLog → OpState ρ)
    (onErr : OpState ρ → BowerError → OpState ρ)
    (onEnd : OpState ρ → ρ → OpState ρ)
    (msg : String) (t : CmdTrace ρ)
    (hL : ∀ s l, quiet s → quiet (onLog s l))
    (hE : ∀ s e, s.d = Deferred.init → s.continueLog = true →
      settledOnce (onErr s e).d)
    (hN : ∀ s r, s.d = Deferred.init → s.continueLog = true →
      settledOnce (onEnd s r).d) :
    settledOnce (runCmd onLog onErr onEnd (OpState.start ρ msg) t).d := by
  obtain ⟨logs, term⟩ := t
  have hq : quiet (logs.foldl (stepLog onLog) (OpState.start ρ msg)) :=
    foldl_preserve _ quiet (stepLog_preserve _ _ hL) logs _ (quiet_start msg)
  obtain ⟨hd, hcl, hcr⟩ := hq
  cases term with
  | inl e => rw [runCmd_inl _ _ _ _ _ _ hcr]; exact hE _ e hd hcl
  | inr r => rw [runCmd_inr _ _ _ _ _ _ hcr]; exact hN _ r hd hcl

theorem installAllRun_so {ρ : Type} (t : CmdTrace ρ) :
    settledOnce (installAllRun t).d :=
  runCmd_so_of_quiet _ _ _ _ t installAllOnLog_quiet
    (fun s e hd _ => reject_settledOnce s.d e hd)
    (fun s r hd _ => by rw [installAllOnEnd_d]; exact resolve_settledOnce _ _ hd)

theorem installRun_so {ρ : Type} (name : String) (t : CmdTrace ρ) :
    settledOnce (installRun name t).d :=
  runCmd_so_of_quiet _ _ _ _ t (fun _ _ h => h)
    (fun s e hd _ => reject_settledOnce s.d e hd)
    (fun s r hd _ => by rw [installOnEnd_d]; exact resolve_settledOnce _ _ hd)

theorem infoRun_so {ρ : Type} (name : String) (t : CmdTrace ρ) :
    settledOnce (infoRun name t).d :=
  runCmd_so_of_quiet _ _ _ _ t (fun _ _ h => h)
    (fun s e hd hcl => by
      unfold infoOnError
      by_cases hc : e.code = "ENOTFOUND"
      · rw [if_pos hc, if_pos hcl]
        exact resolve_settledOnce _ _ hd
      · rw [if_neg hc]
        exact reject_settledOnce s.d e hd)
    (fun s r hd hcl => by
      unfold infoOnEnd
      rw [if_pos hcl]
      exact resolve_settledOnce _ _ hd)

theorem searchRun_so {ρ : Type} (query : String) (t : CmdTrace ρ) :
    settledOnce (searchRun query t).d :=
  runCmd_so_of_quiet _ _ _ _ t (fun _ _ h => h)
    (fun s e hd _ => reject_settledOnce s.d e hd)
    (fun s r hd hcl => by
      unfold searchOnEnd
      rw [if_pos hcl]
      exact resolve_settledOnce _ _ hd)

theorem listPackagesRun_so {ρ : Type} (t : CmdTrace ρ) :
    settledOnce (listPackagesRun t).d :=
  runCmd_so_of_quiet _ _ _ _ t listPackagesOnLog_quiet
    (fun s e hd _ => reject_settledOnce s.d e hd)
    (fun s r hd hcl => by
      unfold listPackagesOnEnd
      rw [if_pos hcl]
      exact resolve_settledOnce _ _ hd)

theorem continueLog_false_of_not_true {ρ : Type} (s : OpState ρ)
    (h : ¬ s.continueLog = true) : s.continueLog = false := by
  revert h
  cases s.continueLog <;> simp

theorem crashed_false_of_not_true {ρ : Type} (s : OpState ρ)
    (h : ¬ s.crashed = true) : s.crashed = false := by
  revert h
  cases s.crashed <;> simp

theorem uninstallOnLog_UInv {ρ : Type} (name : String) (s : OpState ρ)
    (l : BowerLog) (h : UInv s) : UInv (uninstallOnLog name s l) := by
  obtain ⟨h1, h2, h3⟩ := h
  unfold uninstallOnLog
  by_cases hl : l.id = "not-installed"
  · rw [if_pos hl]
    by_cases hcl : s.continueLog = true
    · rw [if_pos hcl]
      have hd := h3 hcl
      refine ⟨fun _ => rfl, fun _ => ?_, fun hc => absurd hc Bool.false_ne_true⟩
      constructor
      · show (s.d.resolve none).state = DState.resolved none
        rw [hd]; rfl
      · show (s.d.resolve none).settleCount = 1
        rw [hd]; rfl
    · rw [if_neg hcl]
      have hclf := continueLog_false_of_not_true s hcl
      refine ⟨fun _ => hclf, fun _ => h2 hclf, fun hc => ?_⟩
      have hc2 : s.continueLog = true := hc
      rw [hclf] at hc2
      exact absurd hc2 Bool.false_ne_true
  · rw [if_neg hl]
    exact ⟨h1, h2, h3⟩

theorem uninstall_fold_UInv {ρ : Type} (name : String) (logs : List BowerLog)
    (s : OpState ρ) (h : UInv s) :
    UInv (logs.foldl (stepLog (uninstallOnLog name)) s) :=
  foldl_preserve _ UInv (stepLog_preserve _ _ (uninstallOnLog_UInv name)) logs s h

theorem uninstallRun_so {ρ : Type} (name : String) (t : CmdTrace ρ) :
    settledOnce (uninstallRun name t).d := by
  obtain ⟨logs, term⟩ := t
  unfold uninstallRun
  obtain ⟨h1, h2, h3⟩ := uninstall_fold_UInv name logs
    (OpState.start ρ s!"attempting to uninstall the package {name}...") (UInv_start _)
  by_cases hc : (logs.foldl (stepLog (uninstallOnLog name))
      (OpState.start ρ s!"attempting to uninstall the package {name}...")).crashed = true
  · rw [runCmd_crashed _ _ _ _ _ _ hc]
    obtain ⟨hst, hcount⟩ := h2 (h1 hc)
    exact ⟨by rw [hst]; simp, hcount⟩
  · have hcf := crashed_false_of_not_true _ hc
    cases term with
    | inl e =>
        rw [runCmd_inl _ _ _ _ _ _ hcf]
        by_cases hcl : (logs.foldl (stepLog (uninstallOnLog name))
            (OpState.start ρ s!"attempting to uninstall the package {name}...")).continueLog = true
        · exact reject_settledOnce _ e (h3 hcl)
        · obtain ⟨hst, hcount⟩ := h2 (continueLog_false_of_not_true _ hcl)
          have hr := reject_of_settled _ e (show _ ≠ DState.pending from by rw [hst]; simp)
          refine ⟨?_, ?_⟩
          · show ((logs.foldl (stepLog (uninstallOnLog name))
              (OpState.start ρ s!"attempting to uninstall the package {name}...")).d.reject e).state ≠ DState.pending
            rw [hr, hst]; simp
          · show ((logs.foldl (stepLog (uninstallOnLog name))
              (OpState.start ρ s!"attempting to uninstall the package {name}...")).d.reject e).settleCount = 1
            rw [hr]; exact hcount
    | inr r =>
        rw [runCmd_inr _ _ _ _ _ _ hcf, show settledOnce (uninstallOnEnd _ r).d =
          settledOnce (_ : OpState ρ).d from rfl]
        rw [show (uninstallOnEnd (logs.foldl (stepLog (uninstallOnLog name))
            (OpState.start ρ s!"attempting to uninstall the package {name}...")) r).d =
          ((logs.foldl (stepLog (uninstallOnLog name))
            (OpState.start ρ s!"attempting to uninstall the package {name}...")).d.resolve (some r))
          from uninstallOnEnd_d _ r]
        by_cases hcl : (logs.foldl (stepLog (uninstallOnLog name))
            (OpState.start ρ s!"attempting to uninstall the package {name}...")).continueLog = true
        · exact resolve_settledOnce _ _ (h3 hcl)
        · obtain ⟨hst, hcount⟩ := h2 (continueLog_false_of_not_true _ hcl)
          have hr := resolve_of_settled _ (some r)
            (show _ ≠ DState.pending from by rw [hst]; simp)
          rw [hr]
          exact ⟨by rw [hst]; simp, hcount⟩

theorem uninstall_step_resolvedNull {ρ : Type} (name : String) (s : OpState ρ)
    (l : BowerLog) (h : resolvedNull s) :
    resolvedNull (uninstallOnLog name s l) := by
  obtain ⟨hst, hcount⟩ := h
  unfold uninstallOnLog
  by_cases hl : l.id = "not-installed"
  · rw [if_pos hl]
    by_cases hcl : s.continueLog = true
    · rw [if_pos hcl]
      have hr := resolve_of_settled s.d (none : Option ρ)
        (show s.d.state ≠ DState.pending from by rw [hst]; simp)
      refine ⟨?_, ?_⟩
      · show (s.d.resolve none).state = DState.resolved none
        rw [hr]; exact hst
      · show (s.d.resolve none).settleCount = 1
        rw [hr]; exact hcount
    · rw [if_neg hcl]
      exact ⟨hst, hcount⟩
  · rw [if_neg hl]
    exact ⟨hst, hcount⟩

theorem uninstall_hit {ρ : Type} (name : String) (s : OpState ρ) (l : BowerLog)
    (hinv : UInv s) (hl : l.id = "not-installed") :
    resolvedNull (stepLog (uninstallOnLog name) s l) := by
  obtain ⟨h1, h2, h3⟩ := hinv
  by_cases hc : s.crashed = true
  · rw [show stepLog (uninstallOnLog name) s l = s from by simp [stepLog, hc]]
    exact h2 (h1 hc)
  · rw [show stepLog (uninstallOnLog name) s l = uninstallOnLog name s l from by
      simp [stepLog, crashed_false_of_not_true s hc]]
    unfold uninstallOnLog
    rw [if_pos hl]
    by_cases hcl : s.continueLog = true
    · rw [if_pos hcl]
      have hd := h3 hcl
      refine ⟨?_, ?_⟩
      · show (s.d.resolve none).state = DState.resolved none
        rw [hd]; rfl
      · show (s.d.resolve none).settleCount = 1
        rw [hd]; rfl
    · rw [if_neg hcl]
      exact h2 (continueLog_false_of_not_true s hcl)

theorem uninstall_fold_resolvedNull {ρ : Type} (name : String)
    (logs : List BowerLog) :
    ∀ s : OpState ρ, UInv s → (∃ l ∈ logs, l.id = "not-installed") →
      resolvedNull (logs.foldl (stepLog (uninstallOnLog name)) s) := by
  induction logs with
  | nil => intro s _ h; simp at h
  | cons l ls ih =>
      intro s hinv hex
      rw [List.foldl_cons]
      by_cases hl : l.id = "not-installed"
      · exact foldl_preserve _ resolvedNull
          (stepLog_preserve _ _ (uninstall_step_resolvedNull name)) ls _
          (uninstall_hit name s l hinv hl)
      · obtain ⟨w, hw, hwid⟩ := hex
        rcases List.mem_cons.mp hw with hwl | hwls
        · exact absurd (hwl ▸ hwid) hl
        · exact ih _ (stepLog_preserve _ _ (uninstallOnLog_UInv name) s l hinv)
            ⟨w, hwls, hwid⟩

theorem getConfigFileRun_so {α : Type} (parse : String → Option α)
    (readResult : Sum FsError String) :
    settledOnce (getConfigFileRun parse readResult).d := by
  unfold getConfigFileRun
  cases readResult with
  | inr data =>
      cases hp : parse data <;>
        simp [hp, Deferred.init, Deferred.resolve, Deferred.reject, settledOnce]
  | inl e =>
      by_cases hc : e.code = "ENOENT" <;>
        simp [hc, Deferred.init, Deferred.resolve, Deferred.reject, settledOnce]

theorem setConfigFileRun_so {α : Type} (stringify : α → String)
    (config : Sum String α) (writeResult : Option FsError) :
    settledOnce (setConfigFileRun stringify config writeResult).d := by
  unfold setConfigFileRun
  cases writeResult <;>
    cases config <;>
      simp [Deferred.init, Deferred.resolve, Deferred.reject, settledOnce]

theorem uninstallOnError_d {ρ : Type} (name : String) (s : OpState ρ)
    (e : BowerError) : (uninstallOnError name s e).d = s.d.reject e := rfl

/-- Claim C1: for every BowerManager operation (installAll, install,
uninstall, info, search, listPackages, getConfigFile, setConfigFile) and
every event sequence delivered by the underlying command (zero or more
log events followed by exactly one of error or end, or the single
callback of the file operations), the returned future settles exactly
once: it ends resolved or rejected, never both, and exactly one
settlement takes effect even when a handler attempts a second one. -/
theorem operations_settle_exactly_once {ρ α β : Type}
    (name query : String) (t : CmdTrace ρ)
    (parse : String → Option α) (readResult : Sum FsError String)
    (stringify : β → String) (config : Sum String β)
    (writeResult : Option FsError) :
    settledOnce (installAllRun t).d ∧
    settledOnce (installRun name t).d ∧
    settledOnce (uninstallRun name t).d ∧
    settledOnce (infoRun name t).d ∧
    settledOnce (searchRun query t).d ∧
    settledOnce (listPackagesRun t).d ∧
    settledOnce (getConfigFileRun parse readResult).d ∧
    settledOnce (setConfigFileRun stringify config writeResult).d :=
  ⟨installAllRun_so t, installRun_so name t, uninstallRun_so name t,
   infoRun_so name t, searchRun_so query t, listPackagesRun_so t,
   getConfigFileRun_so parse readResult,
   setConfigFileRun_so stringify config writeResult⟩

/-- Claim C2: whenever the underlying uninstall command emits a log event
with id `not-installed`, the returned future resolves with null (exactly
one settlement, never a rejection), whether the trace then terminates
with end or with error. -/
theorem uninstall_not_installed_resolves_null {ρ : Type} (name : String)
    (t : CmdTrace ρ) (h : ∃ l ∈ t.logs, l.id = "not-installed") :
    (uninstallRun name t).d.state = DState.resolved none ∧
    (uninstallRun name t).d.settleCount = 1 := by
  obtain ⟨logs, term⟩ := t
  unfold uninstallRun
  obtain ⟨hst, hcount⟩ :=
    uninstall_fold_resolvedNull name logs
      (OpState.start ρ s!"attempting to uninstall the package {name}...")
      (UInv_start _) h
  by_cases hc : (logs.foldl (stepLog (uninstallOnLog name))
      (OpState.start ρ s!"attempting to uninstall the package {name}...")).crashed = true
  · rw [runCmd_crashed _ _ _ _ _ _ hc]
    exact ⟨hst, hcount⟩
  · have hcf := crashed_false_of_not_true _ hc
    cases term with
    | inl e =>
        rw [runCmd_inl _ _ _ _ _ _ hcf, uninstallOnError_d,
            reject_of_settled _ e (by rw [hst]; simp)]
        exact ⟨hst, hcount⟩
    | inr r =>
        rw [runCmd_inr _ _ _ _ _ _ hcf, uninstallOnEnd_d,
            resolve_of_settled _ (some r) (by rw [hst]; simp)]
        exact ⟨hst, hcount⟩

/-- Witness for C2 at a concrete trace: one `not-installed` log followed
by an `end` event. -/
theorem uninstall_not_installed_resolves_null_witness :
    (uninstallRun "jquery"
      (⟨[⟨"not-installed", "cannot remove", ⟨"", "", ""⟩⟩], Sum.inr 7⟩ :
        CmdTrace Nat)).d.state = DState.resolved none ∧
    (uninstallRun "jquery"
      (⟨[⟨"not-installed", "cannot remove", ⟨"", "", ""⟩⟩], Sum.inr 7⟩ :
        CmdTrace Nat)).d.settleCount = 1 :=
  uninstall_not_installed_resolves_null "jquery" _
    ⟨⟨"not-installed", "cannot remove", ⟨"", "", ""⟩⟩, by simp, rfl⟩

/-- Claim C3: an info call terminating with an error whose code is the
lookup miss `ENOTFOUND` resolves with null; any other error code rejects
with that error object; termination with end resolves with the emitted
result. -/
theorem info_lookup_miss_handling {ρ : Type} (name : String) (t : CmdTrace ρ) :
    (∀ e : BowerError, t.term = Sum.inl e → e.code = "ENOTFOUND" →
      (infoRun name t).d.state = DState.resolved none) ∧
    (∀ e : BowerError, t.term = Sum.inl e → e.code ≠ "ENOTFOUND" →
      (infoRun name t).d.state = DState.rejected e) ∧
    (∀ r : ρ, t.term = Sum.inr r →
      (infoRun name t).d.state = DState.resolved (some r)) := by
  obtain ⟨logs, term⟩ := t
  have hfold : logs.foldl (stepLog infoOnLog)
      (OpState.start ρ s!"retriving package info for {name}...") =
      OpState.start ρ s!"retriving package info for {name}..." :=
    foldl_stepLog_const _ (fun _ _ => rfl) logs _
  refine ⟨?_, ?_, ?_⟩
  · intro e he hc
    have he2 : term = Sum.inl e := he
    subst he2
    unfold infoRun
    rw [runCmd_inl _ _ _ _ _ _ (by rw [hfold]; rfl), hfold]
    simp [infoOnError, hc, OpState.start, Deferred.init, Deferred.resolve]
  · intro e he hc
    have he2 : term = Sum.inl e := he
    subst he2
    unfold infoRun
    rw [runCmd_inl _ _ _ _ _ _ (by rw [hfold]; rfl), hfold]
    simp [infoOnError, hc, OpState.start, Deferred.init, Deferred.reject]
  · intro r he
    have he2 : term = Sum.inr r := he
    subst he2
    unfold infoRun
    rw [runCmd_inr _ _ _ _ _ _ (by rw [hfold]; rfl), hfold]
    simp [infoOnEnd, OpState.start, Deferred.init, Deferred.resolve]

/-- Witness for C3 at concrete traces: an `ENOTFOUND` error, another
error code and an `end` result. -/
theorem info_lookup_miss_handling_witness :
    (infoRun "jquery" (⟨[], Sum.inl ⟨"ENOTFOUND", "missing"⟩⟩ :
      CmdTrace Nat)).d.state = DState.resolved none ∧
    (infoRun "jquery" (⟨[], Sum.inl ⟨"ECONNRESET", "down"⟩⟩ :
      CmdTrace Nat)).d.state = DState.rejected ⟨"ECONNRESET", "down"⟩ ∧
    (infoRun "jquery" (⟨[], Sum.inr 3⟩ :
      CmdTrace Nat)).d.state = DState.resolved (some 3) :=
  ⟨(info_lookup_miss_handling "jquery" _).1 _ rfl rfl,
   (info_lookup_miss_handling "jquery" _).2.1 _ rfl (by decide),
   (info_lookup_miss_handling "jquery" _).2.2 _ rfl⟩

/-- Claim C4 (code-bug evidence): when the file read succeeds but the
content is not valid JSON, getConfigFile does reject, but the rejection
value is the null read-error argument, not a parse error, and the
callback then throws accessing error.message (so the error log line is
never emitted). -/
theorem getConfigFile_parse_failure_rejects_null {α : Type}
    (parse : String → Option α) (h : parse "\x7b" = none) :
    (getConfigFileRun parse (Sum.inr "\x7b")).d.state =
      DState.rejected none ∧
    (getConfigFileRun parse (Sum.inr "\x7b")).crashed = true ∧
    (getConfigFileRun parse (Sum.inr "\x7b")).d.settleCount = 1 := by
  simp [getConfigFileRun, h, Deferred.init, Deferred.reject]

/-- Witness for C4: a parse function rejecting the malformed text. -/
theorem getConfigFile_parse_failure_rejects_null_witness :
    (getConfigFileRun (fun _ => (none : Option Nat)) (Sum.inr "\x7b")).d.state =
      DState.rejected none ∧
    (getConfigFileRun (fun _ => (none : Option Nat)) (Sum.inr "\x7b")).crashed = true ∧
    (getConfigFileRun (fun _ => (none : Option Nat)) (Sum.inr "\x7b")).d.settleCount = 1 :=
  getConfigFile_parse_failure_rejects_null (fun _ => (none : Option Nat)) rfl

/-- Counterexample to C5 as stated: for the file text consisting of the
JSON string literal for app, the future resolves with the raw text,
which differs from the parsed content. -/
theorem getConfigFile_resolves_raw_counterexample :
    parseStrLit "\"app\"" = some "app" ∧
    (getConfigFileRun parseStrLit (Sum.inr "\"app\"")).d.state =
      DState.resolved (some "\"app\"") ∧
    ("\"app\"" : String) ≠ "app" := by decide

/-- Claim C5 (amended): a read failing with ENOENT resolves with null;
any other read failure rejects with the underlying I/O error; a
successful read whose content parses resolves with the raw file text
(validated by the parse, but not replaced by it). -/
theorem getConfigFile_read_behavior {α : Type} (parse : String → Option α)
    (e : FsError) (data : String) :
    (e.code = "ENOENT" →
      (getConfigFileRun parse (Sum.inl e)).d.state = DState.resolved none) ∧
    (e.code ≠ "ENOENT" →
      (getConfigFileRun parse (Sum.inl e)).d.state =
        DState.rejected (some e)) ∧
    (∀ v, parse data = some v →
      (getConfigFileRun parse (Sum.inr data)).d.state =
        DState.resolved (some data)) := by
  refine ⟨fun hc => ?_, fun hc => ?_, fun v hv => ?_⟩
  · simp [getConfigFileRun, hc, Deferred.init, Deferred.resolve]
  · simp [getConfigFileRun, hc, Deferred.init, Deferred.reject]
  · simp [getConfigFileRun, hv, Deferred.init, Deferred.resolve]

/-- Witness for C5 (amended) at concrete reads: a missing file, a
permission error and a successful read of valid JSON. -/
theorem getConfigFile_read_behavior_witness :
    (getConfigFileRun parseStrLit
      (Sum.inl ⟨"ENOENT", "no such file", ""⟩)).d.state =
        DState.resolved none ∧
    (getConfigFileRun parseStrLit
      (Sum.inl ⟨"EACCES", "denied", ""⟩)).d.state =
        DState.rejected (some ⟨"EACCES", "denied", ""⟩) ∧
    (getConfigFileRun parseStrLit (Sum.inr "\"app\"")).d.state =
      DState.resolved (some "\"app\"") :=
  ⟨(getConfigFile_read_behavior parseStrLit ⟨"ENOENT", "no such file", ""⟩
      "\"app\"").1 rfl,
   (getConfigFile_read_behavior parseStrLit ⟨"EACCES", "denied", ""⟩
      "\"app\"").2.1 (by decide),
   (getConfigFile_read_behavior parseStrLit ⟨"EACCES", "denied", ""⟩
      "\"app\"").2.2 "app" (by decide)⟩

/-- Claim C6: a successful setConfigFile of a non-string config followed
by a successful getConfigFile yields content whose parsed form equals the
original object; the non-string input is written through the JSON
serializer so parsing the stored text recovers it. -/
theorem set_then_get_config_roundtrip {α : Type} (stringify : α → String)
    (parse : String → Option α) (c : α)
    (h : parse (stringify c) = some c) :
    (setConfigFileRun stringify (Sum.inr c) none).d.state =
      DState.resolved true ∧
    (setConfigFileRun stringify (Sum.inr c) none).written = stringify c ∧
    (getConfigFileRun parse (Sum.inr (stringify c))).d.state =
      DState.resolved (some (stringify c)) ∧
    parse (stringify c) = some c :=
  ⟨rfl, rfl, by simp [getConfigFileRun, h, Deferred.init, Deferred.resolve], h⟩

/-- Witness for C6 at the config object with name field app, with a
concrete serializer/parser pair. -/
theorem set_then_get_config_roundtrip_witness :
    (setConfigFileRun appCfgStringify (Sum.inr (AppCfg.mk "app")) none).d.state =
      DState.resolved true ∧
    (setConfigFileRun appCfgStringify (Sum.inr (AppCfg.mk "app")) none).written =
      appCfgStringify (AppCfg.mk "app") ∧
    (getConfigFileRun appCfgParse
      (Sum.inr (appCfgStringify (AppCfg.mk "app")))).d.state =
        DState.resolved (some (appCfgStringify (AppCfg.mk "app"))) ∧
    appCfgParse (appCfgStringify (AppCfg.mk "app")) = some (AppCfg.mk "app") :=
  set_then_get_config_roundtrip appCfgStringify appCfgParse (AppCfg.mk "app")
    (by decide)

/-- Claim C7: for every state of the connection registry, disconnectAll
calls disconnect on every registered connection, leaves the registry
empty, and emits a log line summarizing the number of connections
disconnected. -/
theorem disconnectAll_behavior (name : String) (s : SrvState) :
    (disconnectAll name s).1.connections = [] ∧
    (disconnectAll name s).2 = s.connections.map Socket.id ∧
    (⟨.info, name, s!"Disconected {s.connections.length}"⟩ : LogLine) ∈
      (disconnectAll name s).1.lines := by
  refine ⟨rfl, rfl, ?_⟩
  simp [disconnectAll]

/-- Counterexample to C8 as stated: install's log handler emits no log
line for a progress notification; the full run of install over a trace
with one log event contains no line recording it. -/
theorem install_progress_not_logged_counterexample :
    (installRun "jquery"
      (⟨[⟨"resolve", "resolving jquery", ⟨"", "", ""⟩⟩], Sum.inr 0⟩ :
        CmdTrace Nat)).lines =
      [⟨.info, "BowerManager", "attempting to install the package jquery..."⟩,
       ⟨.info, "BowerManager", "^gok^:"⟩] := by decide

/-- Claim C8 (amended): installAll and listPackages record each progress
notification's id and message in a log line; install, info and search
ignore log events entirely (their handlers hold only a debugger
statement). -/
theorem progress_logging_per_operation {ρ : Type} (s : OpState ρ)
    (l : BowerLog) :
    (⟨.trace, "BowerManager", s!"id: {l.id}, message: {l.message}"⟩ : LogLine) ∈
      (installAllOnLog s l).lines ∧
    (⟨.trace, "BowerManager", s!"{l.id}: {l.message}"⟩ : LogLine) ∈
      (listPackagesOnLog s l).lines ∧
    installOnLog s l = s ∧ infoOnLog s l = s ∧ searchOnLog s l = s := by
  refine ⟨?_, ?_, rfl, rfl, rfl⟩
  · unfold installAllOnLog
    by_cases hc : l.id = "cached" <;> simp [hc]
  · simp [listPackagesOnLog]

/-- Counterexample to C9 as stated: the enumeration has no key named
unknown and none named entityTooLarge; the claimed name list is not the
actual one. -/
theorem error_codes_names_counterexample :
    ¬ ("unknown" ∈ ERROR_CODES.map Prod.fst) ∧
    ¬ ("entityTooLarge" ∈ ERROR_CODES.map Prod.fst) ∧
    ERROR_CODES.map Prod.fst ≠
      ["invalid", "resourceNotFound", "unknown", "badRequest",
       "notAuthorized", "notFound", "timeout", "entityTooLarge",
       "methodNotAllowed", "tooManyRequests", "error", "notAvailable"] := by
  decide

/-- Claim C9 (amended): the error-code taxonomy is the fixed enumeration
with symbolic names invalid, resourceNotFound, unknow, badRequest,
notAuthorized, notFound, timeout, entityToLarge, methodNotAllowed,
tooManyRequests, error and notAvailable, each mapped to a numeric
code. -/
theorem error_codes_enumeration :
    ERROR_CODES.map Prod.fst =
      ["invalid", "resourceNotFound", "unknow", "badRequest",
       "notAuthorized", "notFound", "timeout", "entityToLarge",
       "methodNotAllowed", "tooManyRequests", "error", "notAvailable"] ∧
    ERROR_CODES.lookup "invalid" = some 0 ∧
    ERROR_CODES.lookup "notFound" = some 404 ∧
    ERROR_CODES.lookup "error" = some 500 ∧
    ERROR_CODES.lookup "notAvailable" = some 503 := by
  decide

/-- Claim C10: setConfigFile validates nothing about its input: a string
config is written verbatim, any other config is serialized before
writing, and a successful write resolves the future with true. -/
theorem setConfigFile_write_behavior {α : Type} (stringify : α → String)
    (s : String) (v : α) (writeResult : Option FsError) :
    (setConfigFileRun stringify (Sum.inl s) writeResult).written = s ∧
    (setConfigFileRun stringify (Sum.inr v) writeResult).written =
      stringify v ∧
    (setConfigFileRun stringify (Sum.inl s) none).d.state =
      DState.resolved true ∧
    (setConfigFileRun stringify (Sum.inr v) none).d.state =
      DState.resolved true := by
  refine ⟨?_, ?_, rfl, rfl⟩ <;> cases writeResult <;> rfl

end BowerGui
